import Mathlib

/-!
# AgentMesh — verification of spec claims against the source

Shallow embedding of the parts of the AgentMesh Python code base that the
claims C1–C10 are about:

* `agentmesh/protocol/agent.py` — context-window hints, token estimation,
  conversation-history trimming, next-agent selection;
* `agentmesh/models/llm/claude_model.py` — the streaming Claude adapter;
* `agentmesh/tools/bash/bash.py` — the bash tool's command-safety check;
* `agentmesh/service/websocket_service.py` — the WebSocket manager's
  `disconnect` and the task processor's `execute_task`;
* `agentmesh/service/agent_executor.py` — the streaming team executor.

Python strings are modelled by Lean `String` (Python `len` on a `str`
counts code points, which matches `String.length` on well-formed
strings); Python integer arithmetic is modelled by `Int`/`Nat`.  String
helpers (`lower`, `split`, `strip`, substring containment) are defined
over `List Char` so that every definition evaluates inside the kernel;
they model Python's behaviour for ASCII input, which covers every
pattern the embedded code matches against.
-/

/-! ## Python string helpers -/

/-- ASCII lower-casing of one character, as Python's `str.lower` acts on
ASCII letters (the only characters the embedded patterns contain). -/
def lowerChar (c : Char) : Char :=
  if 65 ≤ c.toNat ∧ c.toNat ≤ 90 then Char.ofNat (c.toNat + 32) else c

/-- Python's `s.lower()` for ASCII `s`. -/
def lowerStr (s : String) : String :=
  String.mk (s.data.map lowerChar)

/-- Substring containment on character lists: `isSubChars pat s` is true
iff `pat` occurs contiguously in `s` (Python's `pat in s`). -/
def isSubChars (pat : List Char) : List Char → Bool
  | [] => pat.isEmpty
  | c :: rest => pat.isPrefixOf (c :: rest) || isSubChars pat rest

/-- Python's `pat in s` for strings. -/
def containsSub (s pat : String) : Bool :=
  isSubChars pat.data s.data

/-- Python's notion of ASCII whitespace used by `str.split()` / `str.strip()`. -/
def pyIsSpace (c : Char) : Bool :=
  c == ' ' || c == '\t' || c == '\n' || c == '\r' || c == '\x0b' || c == '\x0c'

/-- Python's `s.split()` (split on whitespace runs, no empty fields). -/
def pySplit (s : String) : List String :=
  ((s.data.splitOnP pyIsSpace).map String.mk).filter (· ≠ "")

/-- Python's `s.strip()`. -/
def pyStrip (s : String) : String :=
  String.mk (((s.data.dropWhile pyIsSpace).reverse.dropWhile pyIsSpace).reverse)

/-! ## Message model (`protocol/agent.py`)

A conversation-history entry is a Python dict with a `role`, a `content`
that is a string, a multi-part list, or something else, and (for the
pairing claims) the `tool_calls` ids carried by an assistant message and
the `tool_call_id` of a tool message. -/

/-- One entry of a multi-part `content` list: a `{type: text}` part, a
`{type: image}` part, or any other entry (skipped by the code). -/
inductive ContentPart where
  | text (s : String)
  | image
  | other
deriving DecidableEq

/-- The `content` field of a message: a string, a multi-part list, or a
value of any other type (`_estimate_message_tokens` returns 1 for it).
A missing `content` key defaults to `''`, i.e. `.str ""`. -/
inductive PyContent where
  | str (s : String)
  | parts (ps : List ContentPart)
  | other
deriving DecidableEq

/-- A conversation-history message. -/
structure PyMessage where
  role : String
  content : PyContent
  tool_calls : List String := []
  tool_call_id : Option String := none
deriving DecidableEq

/-! ## `Agent._get_model_context_window` (agent.py lines 63–106) -/

/-- Embeds `Agent._get_model_context_window`.  `none` models an agent whose
`model` is unset (or lacks a `model` attribute); otherwise the model
name is lower-cased and matched by substring. -/
def get_model_context_window (modelName : Option String) : Nat :=
  match modelName with
  | none => 10000
  | some m =>
    if containsSub (lowerStr m) "claude-3" || containsSub (lowerStr m) "claude-sonnet" then
      200000
    else if containsSub (lowerStr m) "gpt-4" then
      if containsSub (lowerStr m) "turbo" || containsSub (lowerStr m) "128k" then 128000
      else if containsSub (lowerStr m) "32k" then 32000
      else 8000
    else if containsSub (lowerStr m) "gpt-3.5" then
      if containsSub (lowerStr m) "16k" then 16000 else 4000
    else if containsSub (lowerStr m) "deepseek" then 64000
    else 10000

/-- The context-window table exactly as claim C9 states it: 200k only
for Claude-3-family names (the claim does not mention `claude-sonnet`). -/
def context_window_per_claim (m : String) : Nat :=
  if containsSub (lowerStr m) "claude-3" then 200000
  else if containsSub (lowerStr m) "gpt-4" && (containsSub (lowerStr m) "turbo" || containsSub (lowerStr m) "128k") then 128000
  else if containsSub (lowerStr m) "gpt-4" && containsSub (lowerStr m) "32k" then 32000
  else if containsSub (lowerStr m) "gpt-4" then 8000
  else if containsSub (lowerStr m) "gpt-3.5" && containsSub (lowerStr m) "16k" then 16000
  else if containsSub (lowerStr m) "gpt-3.5" then 4000
  else if containsSub (lowerStr m) "deepseek" then 64000
  else 10000

/-- The context-window table as amended: names containing `claude-3`
*or* `claude-sonnet` (case-insensitively) get 200k, the rest of the
table is as the claim states it. -/
def context_window_amended (m : String) : Nat :=
  if containsSub (lowerStr m) "claude-3" then 200000
  else if containsSub (lowerStr m) "claude-sonnet" then 200000
  else if containsSub (lowerStr m) "gpt-4" && (containsSub (lowerStr m) "turbo" || containsSub (lowerStr m) "128k") then 128000
  else if containsSub (lowerStr m) "gpt-4" && containsSub (lowerStr m) "32k" then 32000
  else if containsSub (lowerStr m) "gpt-4" then 8000
  else if containsSub (lowerStr m) "gpt-3.5" && containsSub (lowerStr m) "16k" then 16000
  else if containsSub (lowerStr m) "gpt-3.5" then 4000
  else if containsSub (lowerStr m) "deepseek" then 64000
  else 10000

/-! ## `Agent._get_context_reserve_tokens` (agent.py lines 108–120)

Python computes `max(4000, int(context_window * 0.2))`.  Every value
`_get_model_context_window` can return (200000, 128000, 32000, 8000,
16000, 4000, 64000, 10000) is divisible by 5, and for these values the
float product rounds to the exact integer `window / 5` (the rounding
error of the IEEE-754 constant `0.2` is far below half an ulp of the
product), so `int(window * 0.2) = window / 5` in `Nat`. -/

/-- Embeds `Agent._get_context_reserve_tokens`: the explicit
`context_reserve_tokens` override if configured, else
`max(4000, int(window * 0.2))`. -/
def get_context_reserve_tokens (reserveOverride : Option Int) (modelName : Option String) : Int :=
  match reserveOverride with
  | some r => r
  | none => max 4000 ((get_model_context_window modelName : Int) / 5)

/-! ## `Agent._estimate_message_tokens` (agent.py lines 122–143) -/

/-- The `total_chars` accumulation loop over a multi-part content list:
text parts contribute their character count, image parts contribute a
flat 4800 characters, anything else contributes nothing. -/
def multipart_chars : List ContentPart → Nat
  | [] => 0
  | ContentPart.text s :: rest => s.length + multipart_chars rest
  | ContentPart.image :: rest => 4800 + multipart_chars rest
  | ContentPart.other :: rest => multipart_chars rest

/-- Embeds `Agent._estimate_message_tokens`: `max(1, len(content) // 4)` for a
string, `max(1, total_chars // 4)` for a multi-part list, 1 otherwise.
Python's `len` on a string counts characters. -/
def estimate_message_tokens (m : PyMessage) : Nat :=
  match m.content with
  | PyContent.str s => max 1 (s.length / 4)
  | PyContent.parts ps => max 1 (multipart_chars ps / 4)
  | PyContent.other => 1

/-- The per-message token estimate exactly as claim C7 states it:
`max(1, bytes(content) / 4)` for a string content (UTF-8 bytes, not
characters). -/
def estimate_bytes_per_claim (m : PyMessage) : Nat :=
  match m.content with
  | PyContent.str s => max 1 (s.utf8ByteSize / 4)
  | PyContent.parts ps => max 1 (multipart_chars ps / 4)
  | PyContent.other => 1

/-- Characters contributed by the text parts only of a multi-part list. -/
def text_part_chars : List ContentPart → Nat
  | [] => 0
  | ContentPart.text s :: rest => s.length + text_part_chars rest
  | ContentPart.image :: rest => text_part_chars rest
  | ContentPart.other :: rest => text_part_chars rest

/-- Number of image parts of a multi-part list. -/
def image_part_count : List ContentPart → Nat
  | [] => 0
  | ContentPart.text _ :: rest => image_part_count rest
  | ContentPart.image :: rest => 1 + image_part_count rest
  | ContentPart.other :: rest => image_part_count rest

/-! ## `Agent._calculate_context_tokens` (agent.py lines 145–175) -/

/-- Sum of per-message token estimates, as an `Int` for budget
arithmetic. -/
def sum_estimates (l : List PyMessage) : Int :=
  (l.map fun m => (estimate_message_tokens m : Int)).sum

/-- Embeds `Agent._calculate_context_tokens`: 0 for an empty history; the
`prompt_tokens + completion_tokens` of the last API usage when one is
recorded; otherwise the sum of the per-message estimates. -/
def calculate_context_tokens (lastUsage : Option (Nat × Nat)) (history : List PyMessage) : Int :=
  if history.isEmpty then 0
  else
    match lastUsage with
    | some (p, c) => (p : Int) + (c : Int)
    | none => sum_estimates history

/-! ## `Agent._trim_conversation_history` (agent.py lines 177–240) -/

/-- The keep-from-newest loop of `_trim_conversation_history`: walk the
non-system messages newest first, keep each message whose estimate still
fits into `avail`, and stop at the first one that does not
(`kept_messages.insert(0, msg)` keeps them in original order, so the
result is returned oldest first). -/
def keep_from_newest (avail : Int) : List PyMessage → Int → List PyMessage
  | [], _ => []
  | m :: rest, acc =>
    if acc + (estimate_message_tokens m : Int) ≤ avail then
      keep_from_newest avail rest (acc + (estimate_message_tokens m : Int)) ++ [m]
    else
      []

/-- Embeds `Agent._trim_conversation_history`, as a function of the reserve
override, the recorded last usage, the model name and the history.  The
single partitioning pass of the source is rendered as two `filter`s,
which produce the same `system_messages` / `other_messages` lists. -/
def trim_conversation_history (reserveOverride : Option Int) (lastUsage : Option (Nat × Nat))
    (modelName : Option String) (history : List PyMessage) : List PyMessage :=
  if history.isEmpty then history
  else
    let maxTokens : Int :=
      (get_model_context_window modelName : Int) - get_context_reserve_tokens reserveOverride modelName
    if calculate_context_tokens lastUsage history ≤ maxTokens then history
    else
      let systemMessages := history.filter (fun m => m.role == "system")
      let otherMessages := history.filter (fun m => m.role != "system")
      let availableTokens := maxTokens - sum_estimates systemMessages
      systemMessages ++ keep_from_newest availableTokens otherMessages.reverse 0

/-- The trimming loop as claim C6 words it: drop the oldest non-system
message while the retained non-system messages do not fit into the
available budget. -/
def drop_oldest_until_fit (avail : Int) : List PyMessage → List PyMessage
  | [] => []
  | m :: rest =>
    if sum_estimates (m :: rest) ≤ avail then m :: rest
    else drop_oldest_until_fit avail rest

/-- Holds (as `true`) iff `msgs` contains a `tool` message whose `tool_call_id` is
matched by no `assistant` message of `msgs` (the pairing violation of
claim C2). -/
def orphan_tool_present (msgs : List PyMessage) : Bool :=
  msgs.any fun m =>
    m.role == "tool" &&
      (match m.tool_call_id with
       | some cid => !(msgs.any fun a => a.role == "assistant" && a.tool_calls.contains cid)
       | none => false)

/-! ## `Agent.should_invoke_next_agent` (agent.py lines 423–501)

The decision text is produced by the team model and parsed with
`string_util.json_loads`; the parse is modelled by its outcome (any
exception raised inside the `try` block is caught and yields `-1`, so
quantifying over all parse outcomes covers every behaviour of the
parser).  The selected agent's `subtask` assignment is a side effect on
the chosen agent and does not affect the returned id. -/

/-- A JSON value that the `id` field of the decision object can hold
(`null` and a missing key both surface as Python `None`, modelled by
the `Option` around this type). -/
inductive JsonVal where
  | jint (n : Int)
  | jstr (s : String)
  | jbool (b : Bool)
  | jarr
  | jobj
deriving DecidableEq

/-- Digits-to-number helper for `py_int_of_string`. -/
def natOfDigits : List Char → Nat → Nat
  | [], acc => acc
  | c :: rest, acc => natOfDigits rest (acc * 10 + (c.toNat - 48))

/-- Python's `int(s)` on a string: strip whitespace, optional sign,
then a non-empty run of decimal digits; anything else raises
`ValueError` (modelled by `none`). -/
def py_int_of_string (s : String) : Option Int :=
  let t := (pyStrip s).data
  let signed : Int × List Char :=
    match t with
    | '-' :: r => (-1, r)
    | '+' :: r => (1, r)
    | r => (1, r)
  if signed.2 ≠ [] ∧ signed.2.all Char.isDigit then
    some (signed.1 * (natOfDigits signed.2 0 : Int))
  else
    none

/-- Python's `int(x)` coercion on a JSON value: integers pass through,
booleans coerce to 0/1, numeric strings are parsed, lists and dicts
raise `TypeError` (modelled by `none`). -/
def py_int_of_json : JsonVal → Option Int
  | JsonVal.jint n => some n
  | JsonVal.jstr s => py_int_of_string s
  | JsonVal.jbool b => some (if b then 1 else 0)
  | JsonVal.jarr => none
  | JsonVal.jobj => none

/-- One team agent as `should_invoke_next_agent` sees it. -/
structure AgentRec where
  name : String
  description : String
  system_prompt : String
deriving DecidableEq

/-- One `agent_outputs` entry of the team context. -/
structure AgentOutput where
  agent_name : String
  output : String
deriving DecidableEq

/-- Outcome of `string_util.json_loads(decision_text)` followed by the
field accesses performed by the source: the parse raised, the parsed
value is not a dict (`.get` raises `AttributeError`), or it is a dict
with an optional `id` field and an optional `subtask` field. -/
inductive ParseOutcome where
  | parseFail
  | notObject
  | object (idField : Option JsonVal) (subtaskField : Option String)
deriving DecidableEq

/-- Outcome of the decision-model call: an API error
(`response.is_error`) or a successful response whose content parses as
`ParseOutcome`. -/
inductive DecisionOutcome where
  | apiError (msg : String)
  | parsed (r : ParseOutcome)
deriving DecidableEq

/-- The candidate list sent to the decision LLM: the team agents,
enumerated with their original indices, minus every agent whose name
equals the current agent's name (`if agent.name != self.name`). -/
def candidate_list (selfName : String) (agents : List AgentRec) : List (Nat × AgentRec) :=
  agents.enum.filter fun p => p.2.name != selfName

/-- Embeds `Agent.should_invoke_next_agent`: `-1` when the candidate list is
empty (before any model call), on an API error, on any parse failure,
on a `null`/missing/negative/unconvertible id, and on an out-of-range
index (`IndexError` caught by the `except` block); otherwise the id of
the next agent. -/
def should_invoke_next_agent (selfName : String) (agents : List AgentRec)
    (outcome : DecisionOutcome) : Int :=
  if (candidate_list selfName agents).isEmpty then -1
  else
    match outcome with
    | DecisionOutcome.apiError _ => -1
    | DecisionOutcome.parsed ParseOutcome.parseFail => -1
    | DecisionOutcome.parsed ParseOutcome.notObject => -1
    | DecisionOutcome.parsed (ParseOutcome.object none _) => -1
    | DecisionOutcome.parsed (ParseOutcome.object (some v) _) =>
      match py_int_of_json v with
      | none => -1
      | some i => if i < 0 then -1 else if i < (agents.length : Int) then i else -1

/-- The `agent_outputs` append performed at the end of `Agent.step`:
the just-finished agent stores its final answer as the newest entry. -/
def step_append_output (outputs : List AgentOutput) (selfName finalAnswer : String) :
    List AgentOutput :=
  outputs ++ [{ agent_name := selfName, output := finalAnswer }]

/-- Name of the agent that produced the latest `agent_outputs` entry. -/
def latest_output_name (outputs : List AgentOutput) : Option String :=
  outputs.getLast?.map fun o => o.agent_name

/-! ## `ClaudeModel.call_stream` (claude_model.py lines 150–325) -/

/-- A parsed Claude SSE event, as the `json.loads`-ed `data:` payloads
are inspected by the source. -/
inductive ClaudeStreamEvent where
  | blockStartToolUse (index : Int) (id name : String)
  | blockStartOther
  | textDelta (text : String)
  | inputJsonDelta (partialJson : String)
  | messageDelta
  | otherEvent
deriving DecidableEq

/-- One line of the streamed HTTP body: empty lines and lines without a
`data: ` marker are skipped, `data: [DONE]` breaks the loop, undecodable
JSON is skipped (`continue`), anything else is a parsed event. -/
inductive StreamLine where
  | blank
  | nonData
  | doneMark
  | badJson
  | ev (e : ClaudeStreamEvent)
deriving DecidableEq

/-- A chunk yielded by `call_stream`.  Content and tool-call chunks
carry the `finish_reason` field of the OpenAI-format dict the source
builds (always `None` at every construction site of this adapter). -/
inductive Chunk where
  | content (text : String) (finishReason : Option String)
  | toolCall (index : Int) (id name args : String) (finishReason : Option String)
  | errorChunk (statusCode : Int) (message : String)
deriving DecidableEq

/-- A terminal chunk in the sense of the spec: a chunk carrying a
`finish_reason`, or an error chunk. -/
def chunk_is_terminal : Chunk → Bool
  | Chunk.content _ fr => fr.isSome
  | Chunk.toolCall _ _ _ _ fr => fr.isSome
  | Chunk.errorChunk _ _ => true

/-- The per-index tool-use accumulator entry (`{id, name, input}`). -/
structure ToolUseAcc where
  id : String
  name : String
  input : String
deriving DecidableEq

/-- Python dict assignment `d[k] = v` on an insertion-ordered dict. -/
def dict_set (l : List (Int × ToolUseAcc)) (k : Int) (v : ToolUseAcc) :
    List (Int × ToolUseAcc) :=
  if l.any fun p => p.1 == k then
    l.map fun p => if p.1 == k then (k, v) else p
  else
    l ++ [(k, v)]

/-- Python's `d[k]["input"] += fragment`.  The source only reaches this with
`current_tool_use_index ≥ 0`, in which case the key is present (it was
inserted together with the index), so the missing-key case cannot raise. -/
def dict_append_input (l : List (Int × ToolUseAcc)) (k : Int) (fragment : String) :
    List (Int × ToolUseAcc) :=
  l.map fun p => if p.1 == k then (p.1, { p.2 with input := p.2.input ++ fragment }) else p

/-- Insertion into a key-sorted list, for `sorted(tool_uses_map.keys())`. -/
def insert_by_key (p : Int × ToolUseAcc) : List (Int × ToolUseAcc) → List (Int × ToolUseAcc)
  | [] => [p]
  | q :: rest => if p.1 ≤ q.1 then p :: q :: rest else q :: insert_by_key p rest

/-- Sort the accumulator by index, ascending (dict keys are distinct). -/
def sort_by_key : List (Int × ToolUseAcc) → List (Int × ToolUseAcc)
  | [] => []
  | p :: rest => insert_by_key p (sort_by_key rest)

/-- The tool-call chunks yielded on a `message_delta` event: one chunk
per accumulated tool use, in ascending index order, `finish_reason`
`None`. -/
def tool_call_chunks (tus : List (Int × ToolUseAcc)) : List Chunk :=
  (sort_by_key tus).map fun p => Chunk.toolCall p.1 p.2.id p.2.name p.2.input none

/-- The SSE-processing loop of `call_stream` on a 200 response:
`cur` is `current_tool_use_index` (initially `-1`), `tus` is
`tool_uses_map`. -/
def process_stream_lines : List StreamLine → Int → List (Int × ToolUseAcc) → List Chunk
  | [], _, _ => []
  | StreamLine.blank :: rest, cur, tus => process_stream_lines rest cur tus
  | StreamLine.nonData :: rest, cur, tus => process_stream_lines rest cur tus
  | StreamLine.doneMark :: _, _, _ => []
  | StreamLine.badJson :: rest, cur, tus => process_stream_lines rest cur tus
  | StreamLine.ev (ClaudeStreamEvent.blockStartToolUse idx i n) :: rest, _, tus =>
    process_stream_lines rest idx (dict_set tus idx { id := i, name := n, input := "" })
  | StreamLine.ev ClaudeStreamEvent.blockStartOther :: rest, cur, tus =>
    process_stream_lines rest cur tus
  | StreamLine.ev (ClaudeStreamEvent.textDelta t) :: rest, cur, tus =>
    Chunk.content t none :: process_stream_lines rest cur tus
  | StreamLine.ev (ClaudeStreamEvent.inputJsonDelta pj) :: rest, cur, tus =>
    if 0 ≤ cur then process_stream_lines rest cur (dict_append_input tus cur pj)
    else process_stream_lines rest cur tus
  | StreamLine.ev ClaudeStreamEvent.messageDelta :: rest, cur, tus =>
    tool_call_chunks tus ++ process_stream_lines rest cur tus
  | StreamLine.ev ClaudeStreamEvent.otherEvent :: rest, cur, tus =>
    process_stream_lines rest cur tus

/-- Outcome of the HTTP POST and of iterating its body:
a non-2xx status with the extracted error message, a 200 stream whose
lines are consumed to the end (or to `[DONE]`), or a 200 stream whose
iteration is interrupted by an exception after the given lines were
processed (`isRequestExc` selects the `requests.RequestException`
handler, status 0, over the generic handler, status 500; an exception
raised before the first line is the `lines = []` case). -/
inductive HttpOutcome where
  | httpError (status : Int) (message : String)
  | okStream (lines : List StreamLine)
  | interrupted (lines : List StreamLine) (isRequestExc : Bool) (msg : String)
deriving DecidableEq

/-- Embeds `ClaudeModel.call_stream` as the list of chunks the generator
yields for a given HTTP outcome. -/
def claude_call_stream : HttpOutcome → List Chunk
  | HttpOutcome.httpError st m => [Chunk.errorChunk st m]
  | HttpOutcome.okStream lines => process_stream_lines lines (-1) []
  | HttpOutcome.interrupted lines isReq m =>
    process_stream_lines lines (-1) [] ++
      [Chunk.errorChunk (if isReq then 0 else 500)
        (if isReq then "Connection error: " ++ m else "Unexpected error: " ++ m)]

/-! ## `Bash._is_safe_command` and `Bash.execute` (bash.py lines 45–160) -/

/-- The `command_ban_set` of the bash tool. -/
def command_ban_set : List String :=
  ["halt", "poweroff", "shutdown", "reboot", "rm", "kill",
   "exit", "sudo", "su", "userdel", "groupdel", "logout", "alias"]

/-- Embeds `Bash._is_safe_command`: reject an empty token list, a first token
(lower-cased) in the ban set, a command containing `sudo ` or `su -`
(lower-cased substring check on the whole command), or a first token
containing `rm` combined with a `-rf`/`-r`/`-f` substring anywhere in
the command; accept everything else. -/
def is_safe_command (command : String) : Bool :=
  match pySplit command with
  | [] => false
  | firstTok :: _ =>
    if command_ban_set.contains (lowerStr firstTok) then false
    else if containsSub (lowerStr command) "sudo " || containsSub (lowerStr command) "su -" then false
    else if containsSub (lowerStr firstTok) "rm" &&
        (containsSub command "-rf" || containsSub command "-r" || containsSub command "-f") then false
    else true

/-- What `Bash.execute` does with the `command` argument: reject a
blank command, reject an unsafe command, otherwise hand the full
(stripped) command string to `subprocess.run(..., shell=True)`. -/
inductive BashAction where
  | failEmptyCommand
  | failUnsafe (command : String)
  | run (command : String)
deriving DecidableEq

/-- The command-admission logic of `Bash.execute` (the subprocess call,
output truncation and result packaging follow only in the `run` case). -/
def bash_execute (command : String) : BashAction :=
  if pyStrip command = "" then BashAction.failEmptyCommand
  else if !is_safe_command (pyStrip command) then BashAction.failUnsafe (pyStrip command)
  else BashAction.run (pyStrip command)

/-! ## Task worker (`websocket_service.py` lines 195–216 and
`agent_executor.py` lines 99–154) -/

/-- A Task row status (`common/models.py TaskStatus`). -/
inductive PyTaskStatus where
  | running
  | success
  | failed
  | paused
deriving DecidableEq

/-- A WebSocket event broadcast for a task, with the fields the claims
inspect. -/
inductive WsEvent where
  | agentDecision (agentName subTask : String)
  | toolDecision (agentName toolName thought : String)
  | toolExecute (agentName toolName status : String)
  | agentResult (agentName result : String)
  | taskResult (status : String)
deriving DecidableEq

/-- One tool action of a finished agent turn, as
`_execute_task_with_run_async_streaming` reads it from the agent
result dict. -/
structure ToolActionRec where
  tool_name : String
  thought : String
  status : String
  output : String
deriving DecidableEq

/-- One agent result yielded by `team.run_async`. -/
structure AgentTurnRec where
  agent_name : String
  subtask : String
  final_answer : String
  actions : List ToolActionRec
deriving DecidableEq

/-- The events `_execute_task_with_run_async_streaming` broadcasts for
one agent result: `agent_decision`, then per action `tool_decision`
and `tool_execute`, then `agent_result`. -/
def turn_events (t : AgentTurnRec) : List WsEvent :=
  WsEvent.agentDecision t.agent_name t.subtask ::
    (t.actions.map fun a =>
      [WsEvent.toolDecision t.agent_name a.tool_name a.thought,
       WsEvent.toolExecute t.agent_name a.tool_name a.status]).flatten ++
    [WsEvent.agentResult t.agent_name t.final_answer]

/-- How the team run inside `AgentExecutor` goes: the configured team
does not exist (`create_team_from_config` returns `None`), the run (or
the event loop over its results) raises after some turns were
streamed, or the run completes with the given turns. -/
inductive TeamRunOutcome where
  | missingTeam
  | raised (turnsDone : List AgentTurnRec)
  | completed (turns : List AgentTurnRec)
deriving DecidableEq

/-- Embeds `AgentExecutor.execute_task_with_team_streaming` as the list of
events it broadcasts.  Both it and
`_execute_task_with_run_async_streaming` wrap their work in
`try/except Exception` blocks that broadcast `task_result{failed}` and
return normally, so the function never propagates an exception. -/
def execute_task_with_team_streaming : TeamRunOutcome → List WsEvent
  | TeamRunOutcome.missingTeam => [WsEvent.taskResult "failed"]
  | TeamRunOutcome.raised ts => (ts.map turn_events).flatten ++ [WsEvent.taskResult "failed"]
  | TeamRunOutcome.completed ts => (ts.map turn_events).flatten ++ [WsEvent.taskResult "success"]

/-- Embeds `TaskProcessor.execute_task`: given the row status left by
`process_user_input` (running), either skip everything on shutdown, or
set the row to running, run the executor (which swallows every
exception, see above, so the `except` branch of `execute_task` is not
reached from the executor), and finally set the row to success.
Returns the broadcast events and the final Task row status. -/
def task_processor_execute_task (shutdownRequested : Bool) (outcome : TeamRunOutcome)
    (rowStatus : PyTaskStatus) : List WsEvent × PyTaskStatus :=
  if shutdownRequested then ([], rowStatus)
  else (execute_task_with_team_streaming outcome, PyTaskStatus.success)

/-! ## `WebSocketManager.disconnect` (websocket_service.py lines 85–98)

The subscription map `task_connections` is an insertion-ordered dict
from task id to a set of connection ids (modelled as a duplicate-free
list).  The source iterates `self.task_connections.items()` and executes
`del self.task_connections[task_id]` inside the loop when a set becomes
empty; CPython's dict iterator raises
`RuntimeError: dictionary changed size during iteration` at the next
`next()` call after any size change, including the final one. -/

/-- The `disconnect` loop over the remaining dict entries.  Returns
whether a `RuntimeError` was raised and the final dict contents (the
mutations made before the raise persist; entries not yet visited stay
untouched).  `resized` records that a `del` has happened, so the next
entry fetch raises. -/
def ws_disconnect_loop (conn : String) (resized : Bool) :
    List (String × List String) → Bool × List (String × List String)
  | [] => (resized, [])
  | (tid, conns) :: rest =>
    if resized then (true, (tid, conns) :: rest)
    else if conns.contains conn then
      let conns' := conns.erase conn
      if conns'.isEmpty then
        let r := ws_disconnect_loop conn true rest
        (r.1, r.2)
      else
        let r := ws_disconnect_loop conn false rest
        (r.1, (tid, conns') :: r.2)
    else
      let r := ws_disconnect_loop conn false rest
      (r.1, (tid, conns) :: r.2)

/-- State of the `WebSocketManager`: the active connection ids and the
task-subscription dict. -/
structure WsManagerState where
  active_connections : List String
  task_connections : List (String × List String)
deriving DecidableEq

/-- Embeds `WebSocketManager.disconnect`: remove the connection from
`active_connections` (guarded by a membership test, never raises),
then walk `task_connections` removing the connection from each
subscription set and deleting emptied entries.  The first component is
`true` iff the call raised `RuntimeError`. -/
def ws_disconnect (conn : String) (st : WsManagerState) : Bool × WsManagerState :=
  let tc := ws_disconnect_loop conn false st.task_connections
  (tc.1, { active_connections := st.active_connections.erase conn, task_connections := tc.2 })

/-! ## Concrete fixtures used by counterexamples and witnesses -/

/-- A small system message (estimate 1). -/
def sysMsg0 : PyMessage := { role := "system", content := PyContent.str "" }

/-- An assistant message carrying one tool call whose multi-part
content estimates to 6000 tokens (five image parts). -/
def asstMsg0 : PyMessage :=
  { role := "assistant", content := PyContent.parts (List.replicate 5 ContentPart.image),
    tool_calls := ["call_1"] }

/-- The tool message answering `asstMsg0`'s tool call (estimate 1). -/
def toolMsg0 : PyMessage :=
  { role := "tool", content := PyContent.str "ok", tool_call_id := some "call_1" }

/-- A history `[system, assistant-with-tool-call, tool]` whose
estimated size (6002) exceeds the default budget (6000) of a model with
a 10000-token window, while the tool message alone fits. -/
def hist0 : List PyMessage := [sysMsg0, asstMsg0, toolMsg0]

/-! ## C10 -/

/-- C10: the bash safety check admits a command whose first
whitespace-separated token is benign even when it chains a banned
command after a shell operator — `echo hi && rm -rf /` passes the check
and `execute` hands the full command to the shell, although the same
`rm -rf /` alone is rejected. -/
theorem C10_first_token_check_admits_chained_rm :
    is_safe_command "echo hi && rm -rf /" = true ∧
    bash_execute "echo hi && rm -rf /" = BashAction.run "echo hi && rm -rf /" ∧
    is_safe_command "rm -rf /" = false ∧
    bash_execute "rm -rf /" = BashAction.failUnsafe "rm -rf /" := by
  decide

/-! ## C4 -/

/-- C4: contrary to the claim, `disconnect` does not complete without
raising on every state — when the connection is the sole subscriber of
a task, deleting the emptied entry during dict iteration raises
`RuntimeError` (first component `true`); with a second task after the
deleted one, the loop aborts and the connection id even remains in that
task's subscription set. -/
theorem C4_disconnect_raises_on_sole_subscriber :
    ws_disconnect "c1" ⟨["c1"], [("t1", ["c1"])]⟩ = (true, ⟨[], []⟩) ∧
    ws_disconnect "c1" ⟨["c1"], [("t1", ["c1"]), ("t2", ["c1", "c2"])]⟩
      = (true, ⟨[], [("t2", ["c1", "c2"])]⟩) ∧
    ws_disconnect "c1" ⟨["c1"], [("t1", ["c1", "c2"]), ("t2", ["c1", "c3"])]⟩
      = (false, ⟨[], [("t1", ["c2"]), ("t2", ["c3"])]⟩) := by
  decide

/-! ## C1 -/

/-- C1: contrary to the claim, a run that publishes
`task_result{failed}` can leave the Task row with status `success`:
when the configured team is missing (and likewise when the team run
raises), the executor broadcasts `task_result{failed}` and swallows the
error, after which `TaskProcessor.execute_task` unconditionally updates
the row to `success`. -/
theorem C1_failed_task_result_but_row_success :
    task_processor_execute_task false TeamRunOutcome.missingTeam PyTaskStatus.running
      = ([WsEvent.taskResult "failed"], PyTaskStatus.success) ∧
    task_processor_execute_task false (TeamRunOutcome.raised []) PyTaskStatus.running
      = ([WsEvent.taskResult "failed"], PyTaskStatus.success) := by
  decide

/-! ## C2 -/

/-- C2 (counterexample): trimming `hist0` with the default 10000-token
window drops the assistant message that carries `call_1` but keeps the
tool message answering it, so the trimmed sequence contains a `tool`
message whose matching `assistant` message is absent — the pair is not
dropped atomically. -/
theorem C2_counterexample_orphaned_tool_message :
    orphan_tool_present hist0 = false ∧
    trim_conversation_history none none (some "m") hist0 = [sysMsg0, toolMsg0] ∧
    orphan_tool_present (trim_conversation_history none none (some "m") hist0) = true := by
  decide

/-- C2 (amended): after context trimming every `system` message that
was present before the trim is still present; the tool-call pairing
half of the claim is false (see the counterexample), as the trimmer
keeps or drops non-system messages purely by token budget. -/
theorem C2_amended_system_messages_preserved :
    ∀ (reserveOverride : Option Int) (lastUsage : Option (Nat × Nat))
      (modelName : Option String) (history : List PyMessage) (m : PyMessage),
      m ∈ history → m.role = "system" →
      m ∈ trim_conversation_history reserveOverride lastUsage modelName history := by
  intro ro lu mn history m hmem hrole
  unfold trim_conversation_history
  split
  · exact hmem
  · dsimp only
    split
    · exact hmem
    · refine List.mem_append_left _ ?_
      exact List.mem_filter.mpr ⟨hmem, by simp [hrole]⟩

/-- C2 (witness for the amended theorem): the system message of `hist0`
survives the trim that orphans the tool message. -/
theorem C2_amended_witness :
    sysMsg0 ∈ trim_conversation_history none none (some "m") hist0 :=
  C2_amended_system_messages_preserved none none (some "m") hist0 sysMsg0 (by decide) rfl

/-! ## C7 -/

/-- C7 (counterexample): the estimator counts characters, not bytes —
`"aaaaaaaa"` and `"日日aa"` have the same UTF-8 byte length (8), yet
the code estimates 2 and 1 tokens for them respectively, while the
claim's `max(1, bytes/4)` formula gives 2 for both. -/
theorem C7_counterexample_chars_not_bytes :
    ("aaaaaaaa" : String).utf8ByteSize = ("日日aa" : String).utf8ByteSize ∧
    estimate_message_tokens { role := "user", content := PyContent.str "aaaaaaaa" } = 2 ∧
    estimate_message_tokens { role := "user", content := PyContent.str "日日aa" } = 1 ∧
    estimate_bytes_per_claim { role := "user", content := PyContent.str "日日aa" } = 2 := by
  decide

/-- The multi-part character accumulator splits into the text-part
character total plus 4800 characters per image part. -/
theorem multipart_chars_split (ps : List ContentPart) :
    multipart_chars ps = text_part_chars ps + 4800 * image_part_count ps := by
  induction ps with
  | nil => rfl
  | cons p rest ih =>
    cases p <;> simp [multipart_chars, text_part_chars, image_part_count, ih] <;> ring

/-- C7 (amended): the token estimate is `max(1, chars(content)/4)` for
string content (characters, not bytes); for multi-part content the text
parts' characters are summed, each image adds a flat 1200 tokens, and
the total is floored at 1; any other content type estimates to 1. -/
theorem C7_amended_char_based_estimate :
    ∀ m : PyMessage,
      estimate_message_tokens m =
        match m.content with
        | PyContent.str s => max 1 (s.length / 4)
        | PyContent.parts ps => max 1 (text_part_chars ps / 4 + 1200 * image_part_count ps)
        | PyContent.other => 1 := by
  intro m
  cases h : m.content with
  | str s => simp [estimate_message_tokens, h]
  | other => simp [estimate_message_tokens, h]
  | parts ps =>
    simp only [estimate_message_tokens, h, multipart_chars_split]
    omega

/-! ## C6 -/

/-- Per-message estimates are non-negative as integers. -/
theorem estimate_nonneg (m : PyMessage) : (0 : Int) ≤ (estimate_message_tokens m : Int) :=
  Int.ofNat_nonneg _

/-- Estimate sums are non-negative. -/
theorem sum_estimates_nonneg (l : List PyMessage) : 0 ≤ sum_estimates l := by
  apply List.sum_nonneg
  intro x hx
  obtain ⟨m, _, rfl⟩ := List.mem_map.mp hx
  exact estimate_nonneg m

/-- Unfolding lemma for `sum_estimates` on a cons cell. -/
theorem sum_estimates_cons (m : PyMessage) (l : List PyMessage) :
    sum_estimates (m :: l) = (estimate_message_tokens m : Int) + sum_estimates l := by
  simp [sum_estimates]

/-- Reversal does not change the estimate sum. -/
theorem sum_estimates_reverse (l : List PyMessage) :
    sum_estimates l.reverse = sum_estimates l := by
  simp [sum_estimates, List.sum_reverse]

/-- Appending splits the estimate sum. -/
theorem sum_estimates_append (l₁ l₂ : List PyMessage) :
    sum_estimates (l₁ ++ l₂) = sum_estimates l₁ + sum_estimates l₂ := by
  simp [sum_estimates]

/-- When the whole (reversed) tail fits into the budget, the
keep-from-newest loop keeps every message. -/
theorem keep_from_newest_all_fits (l : List PyMessage) (avail acc : Int)
    (h : acc + sum_estimates l ≤ avail) :
    keep_from_newest avail l acc = l.reverse := by
  induction l generalizing acc with
  | nil => rfl
  | cons m rest ih =>
    have hrest := sum_estimates_nonneg rest
    have hm := estimate_nonneg m
    rw [sum_estimates_cons] at h
    have hfit : acc + (estimate_message_tokens m : Int) ≤ avail := by linarith
    rw [keep_from_newest, if_pos hfit, ih _ (by linarith)]
    simp

/-- A message that can never fit on top of the rest of the reversed
tail does not change the keep-from-newest result. -/
theorem keep_from_newest_drop_last (l : List PyMessage) (m : PyMessage) (avail acc : Int)
    (h : avail < acc + sum_estimates l + (estimate_message_tokens m : Int)) :
    keep_from_newest avail (l ++ [m]) acc = keep_from_newest avail l acc := by
  induction l generalizing acc with
  | nil =>
    have : ¬ acc + (estimate_message_tokens m : Int) ≤ avail := by
      simp [sum_estimates] at h
      linarith
    simp [keep_from_newest, this]
  | cons x rest ih =>
    rw [sum_estimates_cons] at h
    by_cases hx : acc + (estimate_message_tokens x : Int) ≤ avail
    · rw [List.cons_append, keep_from_newest, if_pos hx,
        keep_from_newest, if_pos hx, ih _ (by linarith)]
    · rw [List.cons_append, keep_from_newest, if_neg hx, keep_from_newest, if_neg hx]

/-- The keep-from-newest loop of the source computes exactly the
drop-the-oldest-non-system-message-until-it-fits rule of the claim. -/
theorem keep_from_newest_eq_drop_oldest (l : List PyMessage) (avail : Int) :
    keep_from_newest avail l.reverse 0 = drop_oldest_until_fit avail l := by
  induction l with
  | nil => rfl
  | cons m rest ih =>
    rw [drop_oldest_until_fit]
    by_cases hfit : sum_estimates (m :: rest) ≤ avail
    · rw [if_pos hfit, List.reverse_cons, keep_from_newest_all_fits]
      · simp
      · rw [sum_estimates_append, sum_estimates_reverse, sum_estimates_cons] at *
        simp [sum_estimates] at *
        linarith
    · rw [if_neg hfit, List.reverse_cons, keep_from_newest_drop_last, ih]
      rw [sum_estimates_cons] at hfit
      rw [sum_estimates_reverse]
      linarith

/-- C6: with no reserve override and no recorded usage, trimming uses
the budget `window − reserve` with `reserve = max(4000, ⌊0.2·window⌋)`
(an explicit override replaces the reserve verbatim); the history is
returned unchanged when its estimated token count is within the budget,
and otherwise the result retains every system message and drops the
oldest non-system messages until the retained ones fit the remaining
budget. -/
theorem C6_trim_budget_and_drop_oldest :
    ∀ (modelName : Option String) (history : List PyMessage),
      get_context_reserve_tokens none modelName
          = max 4000 ((get_model_context_window modelName : Int) / 5) ∧
      (∀ r : Int, get_context_reserve_tokens (some r) modelName = r) ∧
      trim_conversation_history none none modelName history =
        (if sum_estimates history
            ≤ (get_model_context_window modelName : Int)
                - get_context_reserve_tokens none modelName
         then history
         else
           history.filter (fun m => m.role == "system") ++
             drop_oldest_until_fit
               (((get_model_context_window modelName : Int)
                   - get_context_reserve_tokens none modelName)
                 - sum_estimates (history.filter (fun m => m.role == "system")))
               (history.filter (fun m => m.role != "system"))) := by
  intro mn history
  refine ⟨rfl, fun r => rfl, ?_⟩
  by_cases hemp : history = []
  · subst hemp
    simp [trim_conversation_history, sum_estimates, drop_oldest_until_fit]
  · have hne : ¬ history.isEmpty = true := by
      simpa [List.isEmpty_iff] using hemp
    unfold trim_conversation_history
    rw [if_neg hne]
    have hcalc : calculate_context_tokens none history = sum_estimates history := by
      unfold calculate_context_tokens
      rw [if_neg hne]
    dsimp only
    rw [hcalc, keep_from_newest_eq_drop_oldest]

/-! ## C9 -/

/-- C9 (counterexample): `claude-sonnet-4-5` is not a Claude-3-family
name (it does not contain `claude-3`), so the claim's table assigns it
the 10k default, but the code returns 200k because it also matches the
`claude-sonnet` substring. -/
theorem C9_counterexample_claude_sonnet :
    containsSub (lowerStr "claude-sonnet-4-5") "claude-3" = false ∧
    context_window_per_claim "claude-sonnet-4-5" = 10000 ∧
    get_model_context_window (some "claude-sonnet-4-5") = 200000 := by
  decide

/-- C9 (amended): the context-window hint follows the claim's table
with one amendment — names containing `claude-sonnet` also get 200k
(matching is case-insensitive substring matching throughout). -/
theorem C9_amended_context_window_table :
    ∀ name : String, get_model_context_window (some name) = context_window_amended name := by
  intro name
  simp only [get_model_context_window, context_window_amended]
  cases h1 : containsSub (lowerStr name) "claude-3" <;>
    cases h2 : containsSub (lowerStr name) "claude-sonnet" <;>
    cases h3 : containsSub (lowerStr name) "gpt-4" <;>
    cases h4 : containsSub (lowerStr name) "turbo" <;>
    cases h5 : containsSub (lowerStr name) "128k" <;>
    cases h6 : containsSub (lowerStr name) "32k" <;>
    cases h7 : containsSub (lowerStr name) "gpt-3.5" <;>
    cases h8 : containsSub (lowerStr name) "16k" <;>
    cases h9 : containsSub (lowerStr name) "deepseek" <;>
    simp [h1, h2, h3, h4, h5, h6, h7, h8, h9]

/-! ## C3 -/

/-- Tool-call chunks never carry a finish reason, hence are never
terminal. -/
theorem tool_call_chunks_not_terminal (tus : List (Int × ToolUseAcc)) :
    ∀ c ∈ tool_call_chunks tus, chunk_is_terminal c = false := by
  intro c hc
  obtain ⟨p, _, rfl⟩ := List.mem_map.mp hc
  rfl

/-- No chunk produced by the 200-stream processing loop is terminal:
content and tool-call chunks are built with `finish_reason = None` and
no error chunk is ever yielded there. -/
theorem process_stream_lines_not_terminal (lines : List StreamLine) :
    ∀ (cur : Int) (tus : List (Int × ToolUseAcc)),
      ∀ c ∈ process_stream_lines lines cur tus, chunk_is_terminal c = false := by
  induction lines with
  | nil => intro cur tus c hc; cases hc
  | cons l rest ih =>
    intro cur tus c hc
    cases l with
    | blank => exact ih cur tus c hc
    | nonData => exact ih cur tus c hc
    | doneMark => cases hc
    | badJson => exact ih cur tus c hc
    | ev e =>
      cases e with
      | blockStartToolUse idx i n => exact ih _ _ c hc
      | blockStartOther => exact ih cur tus c hc
      | textDelta t =>
        rcases List.mem_cons.mp hc with h | h
        · subst h; rfl
        · exact ih cur tus c h
      | inputJsonDelta pj =>
        rw [process_stream_lines] at hc
        split at hc
        · exact ih _ _ c hc
        · exact ih _ _ c hc
      | messageDelta =>
        rcases List.mem_append.mp hc with h | h
        · exact tool_call_chunks_not_terminal tus c h
        · exact ih cur tus c h
      | otherEvent => exact ih cur tus c hc

/-- C3 (counterexample): a successful streamed call — a 200 response
delivering one text delta and then `[DONE]` — yields one content chunk
with `finish_reason = None` and no terminal chunk at all, contradicting
the claim that every streamed call yields exactly one terminal chunk. -/
theorem C3_counterexample_success_has_no_terminal :
    claude_call_stream
        (HttpOutcome.okStream [StreamLine.ev (ClaudeStreamEvent.textDelta "hi"), StreamLine.doneMark])
      = [Chunk.content "hi" none] ∧
    (claude_call_stream
        (HttpOutcome.okStream [StreamLine.ev (ClaudeStreamEvent.textDelta "hi"), StreamLine.doneMark])).countP
        chunk_is_terminal = 0 := by
  decide

/-- C3 (amended): every error path of `call_stream` — non-2xx response,
connection error or any exception before or during streaming — yields
exactly one terminal chunk, an error chunk, and it is the last chunk
yielded; a 200 stream that completes (or hits `[DONE]`) yields no
terminal chunk at all: all its chunks carry `finish_reason = None`. -/
theorem C3_amended_terminal_chunk_discipline :
    (∀ (st : Int) (m : String),
      claude_call_stream (HttpOutcome.httpError st m) = [Chunk.errorChunk st m]) ∧
    (∀ lines : List StreamLine,
      (claude_call_stream (HttpOutcome.okStream lines)).all
        (fun c => !chunk_is_terminal c) = true) ∧
    (∀ (lines : List StreamLine) (isReq : Bool) (m : String),
      (claude_call_stream (HttpOutcome.interrupted lines isReq m)).countP
          chunk_is_terminal = 1 ∧
      (claude_call_stream (HttpOutcome.interrupted lines isReq m)).getLast?
        = some (Chunk.errorChunk (if isReq then 0 else 500)
            (if isReq then "Connection error: " ++ m else "Unexpected error: " ++ m))) := by
  refine ⟨fun st m => rfl, ?_, ?_⟩
  · intro lines
    rw [List.all_eq_true]
    intro c hc
    simp [process_stream_lines_not_terminal lines (-1) [] c hc]
  · intro lines isReq m
    constructor
    · rw [claude_call_stream, List.countP_append]
      have h0 : (process_stream_lines lines (-1) []).countP chunk_is_terminal = 0 := by
        rw [List.countP_eq_zero]
        intro c hc
        simp [process_stream_lines_not_terminal lines (-1) [] c hc]
      rw [h0]
      rfl
    · rw [claude_call_stream, List.getLast?_concat]

/-! ## C5 -/

/-- C5: the next-agent selection returns `-1` (team done, no further
agent invoked) and does not raise whenever the decision-model call
errored, the response fails to parse as a JSON object, the parsed `id`
is missing or `null`, the `id` cannot be converted to an integer, the
converted `id` is negative (in particular `-1`), or the converted `id`
is out of range for the team's agent list. -/
theorem C5_decision_error_paths_return_done :
    ∀ (selfName : String) (agents : List AgentRec) (outcome : DecisionOutcome),
      ((∃ msg, outcome = DecisionOutcome.apiError msg) ∨
       outcome = DecisionOutcome.parsed ParseOutcome.parseFail ∨
       outcome = DecisionOutcome.parsed ParseOutcome.notObject ∨
       (∃ st, outcome = DecisionOutcome.parsed (ParseOutcome.object none st)) ∨
       (∃ v st, outcome = DecisionOutcome.parsed (ParseOutcome.object (some v) st) ∧
          (py_int_of_json v = none ∨
           ∃ i, py_int_of_json v = some i ∧ (i < 0 ∨ (agents.length : Int) ≤ i)))) →
      should_invoke_next_agent selfName agents outcome = -1 := by
  intro selfName agents outcome h
  unfold should_invoke_next_agent
  by_cases hemp : (candidate_list selfName agents).isEmpty
  · simp [hemp]
  · rw [if_neg hemp]
    rcases h with ⟨msg, rfl⟩ | rfl | rfl | ⟨st, rfl⟩ | ⟨v, st, rfl, hv⟩
    · rfl
    · rfl
    · rfl
    · rfl
    · rcases hv with hnone | ⟨i, hi, hcase⟩
      · simp [hnone]
      · rcases hcase with hneg | hge
        · simp [hi, hneg]
        · have h1 : ¬ i < 0 := by omega
          have h2 : ¬ i < (agents.length : Int) := by omega
          simp [hi, h1, h2]

/-- C5 (witness): a decision whose parsed `id` is `-1` makes the
selection return `-1`. -/
theorem C5_witness :
    should_invoke_next_agent "a" [⟨"a", "", ""⟩, ⟨"b", "", ""⟩]
        (DecisionOutcome.parsed (ParseOutcome.object (some (JsonVal.jint (-1))) none)) = -1 :=
  C5_decision_error_paths_return_done "a" [⟨"a", "", ""⟩, ⟨"b", "", ""⟩] _
    (Or.inr (Or.inr (Or.inr (Or.inr ⟨JsonVal.jint (-1), none, rfl,
      Or.inr ⟨-1, rfl, Or.inl (by norm_num)⟩⟩))))

/-! ## C8 -/

/-- C8: after an agent appends its answer as the latest
`agent_outputs` entry, the candidate list built for the decision LLM
never contains an agent with that agent's name; and when the team
contains no other agent, selection returns `-1` for every possible
decision outcome, i.e. without consulting the decision LLM at all. -/
theorem C8_candidates_exclude_latest_speaker :
    ∀ (outputs : List AgentOutput) (selfName finalAnswer : String) (agents : List AgentRec),
      (∀ p ∈ candidate_list selfName agents,
          some p.2.name ≠ latest_output_name (step_append_output outputs selfName finalAnswer)) ∧
      ((∀ a ∈ agents, a.name = selfName) →
          ∀ outcome : DecisionOutcome, should_invoke_next_agent selfName agents outcome = -1) := by
  intro outputs selfName finalAnswer agents
  constructor
  · intro p hp
    have hname : (p.2.name != selfName) = true := (List.mem_filter.mp hp).2
    have hne : p.2.name ≠ selfName := by simpa using hname
    have hlatest : latest_output_name (step_append_output outputs selfName finalAnswer)
        = some selfName := by
      unfold latest_output_name step_append_output
      rw [List.getLast?_concat]
      rfl
    rw [hlatest]
    exact fun hEq => hne (Option.some.inj hEq)
  · intro hall outcome
    have hempty : candidate_list selfName agents = [] := by
      unfold candidate_list
      rw [List.filter_eq_nil_iff]
      intro p hp
      have hmem : p.2 ∈ agents := by
        have hget := List.mem_enum_iff_getElem?.mp hp
        exact List.getElem?_mem hget
      simp [hall p.2 hmem]
    unfold should_invoke_next_agent
    rw [hempty]
    rfl

/-- C8 (witness): in a single-agent team the agent that just spoke is
the only agent, so selection returns `-1` regardless of any decision
outcome. -/
theorem C8_witness :
    should_invoke_next_agent "a" [⟨"a", "desc", "sys"⟩]
        (DecisionOutcome.parsed (ParseOutcome.object (some (JsonVal.jint 0)) (some "x"))) = -1 :=
  (C8_candidates_exclude_latest_speaker [] "a" "done" [⟨"a", "desc", "sys"⟩]).2
    (by decide) (DecisionOutcome.parsed (ParseOutcome.object (some (JsonVal.jint 0)) (some "x")))
